import Mathlib

/-!
Verification of the federated-agent orchestrator subsystem of
`claude-code-labs` (files `message_schema.py`, `message_queue.py`,
`orchestrator.py`, `agents.py`), as a shallow embedding in Lean 4.

Conventions of the embedding:
* Python enumerations become Lean inductive types whose `value`
  function returns the Python string value and whose `ofValue`
  function models the enum constructor `Enum(s)` (raising `ValueError`
  becomes returning `none`).
* JSON values are modelled by the inductive type `Json`.  The pair
  `json.dumps` / `json.loads` is the identity on this AST (both are
  faithful on JSON-representable data), so serialization is modelled
  at the AST level: `to_json` builds the `Json` object that
  `json.dumps` would print and `from_json` consumes the `Json`
  object that `json.loads` would return.
* Python dictionaries become association lists with Python dict
  semantics (assignment overwrites an existing key, iteration order is
  insertion order, `pop` removes the entry).
* Nondeterministic effects (uuid generation, `datetime.utcnow`) become
  explicit parameters (`freshId`, `now`); I/O outcomes of the broker
  (publish success, queue inspection) become explicit oracles.
-/

namespace FederatedAgents

/-- MessageType from message_schema.py: types of messages agents can send. -/
inductive MessageType where
  | task_request
  | task_response
  | status_update
  | error
  | heartbeat
deriving DecidableEq, Repr

/-- String value of a MessageType, as in the Python str-Enum. -/
def MessageType.value : MessageType → String
  | .task_request => "task_request"
  | .task_response => "task_response"
  | .status_update => "status_update"
  | .error => "error"
  | .heartbeat => "heartbeat"

/-- Models the enum constructor MessageType(s): the member with value s, else failure. -/
def MessageType.ofValue : String → Option MessageType
  | "task_request" => some .task_request
  | "task_response" => some .task_response
  | "status_update" => some .status_update
  | "error" => some .error
  | "heartbeat" => some .heartbeat
  | _ => none

/-- AgentType from message_schema.py: agent identities in the federated system. -/
inductive AgentType where
  | local_claude
  | local_openai
  | cloud_gemini
  | orchestrator
deriving DecidableEq, Repr

/-- String value of an AgentType. -/
def AgentType.value : AgentType → String
  | .local_claude => "local_claude"
  | .local_openai => "local_openai"
  | .cloud_gemini => "cloud_gemini"
  | .orchestrator => "orchestrator"

/-- Models the enum constructor AgentType(s). -/
def AgentType.ofValue : String → Option AgentType
  | "local_claude" => some .local_claude
  | "local_openai" => some .local_openai
  | "cloud_gemini" => some .cloud_gemini
  | "orchestrator" => some .orchestrator
  | _ => none

/-- TaskType from message_schema.py: tasks agents can perform. -/
inductive TaskType where
  | code_review
  | architecture_design
  | content_generation
  | brainstorming
  | data_analysis
  | web_research
  | multi_agent_task
deriving DecidableEq, Repr

/-- String value of a TaskType. -/
def TaskType.value : TaskType → String
  | .code_review => "code_review"
  | .architecture_design => "architecture_design"
  | .content_generation => "content_generation"
  | .brainstorming => "brainstorming"
  | .data_analysis => "data_analysis"
  | .web_research => "web_research"
  | .multi_agent_task => "multi_agent_task"

/-- Models the enum constructor TaskType(s). -/
def TaskType.ofValue : String → Option TaskType
  | "code_review" => some .code_review
  | "architecture_design" => some .architecture_design
  | "content_generation" => some .content_generation
  | "brainstorming" => some .brainstorming
  | "data_analysis" => some .data_analysis
  | "web_research" => some .web_research
  | "multi_agent_task" => some .multi_agent_task
  | _ => none

/-- Priority from message_schema.py. -/
inductive Priority where
  | low
  | medium
  | high
deriving DecidableEq, Repr

/-- String value of a Priority. -/
def Priority.value : Priority → String
  | .low => "low"
  | .medium => "medium"
  | .high => "high"

/-- Models the enum constructor Priority(s). -/
def Priority.ofValue : String → Option Priority
  | "low" => some .low
  | "medium" => some .medium
  | "high" => some .high
  | _ => none

/-- JSON values, the common target of json.dumps and source of json.loads.
An object is an association list of key-value pairs in insertion order. -/
inductive Json where
  | null
  | bool (b : Bool)
  | num (n : Int)
  | str (s : String)
  | arr (elems : List Json)
  | obj (fields : List (String × Json))

/-- Lookup of a key in a JSON object: data[k] and data.get(k) both find the
value stored under k (objects built by this code never repeat a key). -/
def Json.get : Json → String → Option Json
  | .obj fields, k => go fields k
  | _, _ => none
where
  go : List (String × Json) → String → Option Json
    | [], _ => none
    | (k1, v) :: rest, k => if k1 = k then some v else go rest k

/-- Python truthiness of a JSON-decoded value, as used by
`if data.get("task_type")` in from_json. -/
def Json.truthy : Json → Bool
  | .null => false
  | .bool b => b
  | .num n => n != 0
  | .str s => s != ""
  | .arr elems => !elems.isEmpty
  | .obj fields => !fields.isEmpty

/-- Coerce a decoded JSON value to the String a typed field stores;
fails on a value of another type. -/
def Json.asString : Json → Option String
  | .str s => some s
  | _ => none

/-- Coerce a decoded JSON value to the Int a typed field stores. -/
def Json.asInt : Json → Option Int
  | .num n => some n
  | _ => none

/-- AgentMessage from message_schema.py: the standard message format for
agent-to-agent communication.  The two auto-generated fields
(message_id from uuid4, timestamp from utcnow) are ordinary fields here;
construction sites pass them explicitly. -/
structure AgentMessage where
  message_type : MessageType
  source_agent : AgentType
  target_agent : AgentType
  payload : Json
  task_type : Option TaskType := none
  message_id : String
  timestamp : String
  correlation_id : String := ""
  priority : Priority := .medium
  retry_count : Int := 0

/-- AgentMessage.to_json: the JSON object passed to json.dumps, with every
field explicit (task_type serialized as null when absent, since a TaskType
enum member is always truthy in Python). -/
def AgentMessage.to_json (m : AgentMessage) : Json :=
  .obj [
    ("message_id", .str m.message_id),
    ("message_type", .str m.message_type.value),
    ("source_agent", .str m.source_agent.value),
    ("target_agent", .str m.target_agent.value),
    ("task_type", match m.task_type with
      | some t => .str t.value
      | none => .null),
    ("payload", m.payload),
    ("correlation_id", .str m.correlation_id),
    ("priority", .str m.priority.value),
    ("timestamp", .str m.timestamp),
    ("retry_count", .num m.retry_count)
  ]

/-- AgentMessage.from_json on the value returned by json.loads.
Required keys are read with data[k] (KeyError becomes none), optional keys
with data.get(k, default); enum constructors fail on out-of-range strings;
the typed embedding additionally requires each field to decode at its
declared type.  The task_type branch mirrors
`TaskType(data["task_type"]) if data.get("task_type") else None`:
a missing or falsy value yields none. -/
def AgentMessage.from_json (j : Json) : Option AgentMessage :=
  ((j.get "message_id").bind Json.asString).bind fun message_id =>
  (((j.get "message_type").bind Json.asString).bind MessageType.ofValue).bind fun message_type =>
  (((j.get "source_agent").bind Json.asString).bind AgentType.ofValue).bind fun source_agent =>
  (((j.get "target_agent").bind Json.asString).bind AgentType.ofValue).bind fun target_agent =>
  (match j.get "task_type" with
    | some v =>
      if v.truthy then
        (v.asString.bind TaskType.ofValue).bind fun t => some (some t)
      else some none
    | none => some none).bind fun task_type =>
  (j.get "payload").bind fun payload =>
  (((j.get "correlation_id").getD (.str "")).asString).bind fun correlation_id =>
  ((((j.get "priority").getD (.str "medium")).asString).bind Priority.ofValue).bind fun priority =>
  (((j.get "timestamp").getD (.str "")).asString).bind fun timestamp =>
  (((j.get "retry_count").getD (.num 0)).asInt).bind fun retry_count =>
  some {
    message_id := message_id
    message_type := message_type
    source_agent := source_agent
    target_agent := target_agent
    task_type := task_type
    payload := payload
    correlation_id := correlation_id
    priority := priority
    timestamp := timestamp
    retry_count := retry_count
  }

/-- AgentMessage.create_response: the response to this message.  The fresh
message_id and timestamp that the AgentMessage constructor would
auto-generate are passed in as freshId and freshTs.  The correlation_id is
`self.correlation_id or self.message_id` (Python or: the empty string is
falsy). -/
def AgentMessage.create_response (m : AgentMessage) (result : Json)
    (success : Bool) (freshId freshTs : String) : AgentMessage :=
  { message_type := if success then .task_response else .error
    source_agent := m.target_agent
    target_agent := m.source_agent
    task_type := m.task_type
    payload := .obj [("success", .bool success), ("result", result)]
    message_id := freshId
    timestamp := freshTs
    correlation_id := if m.correlation_id = "" then m.message_id else m.correlation_id
    priority := m.priority
    retry_count := 0 }

/-! Python dictionaries as association lists in insertion order. -/

/-- Python `k in d` / `d.get(k)` / `d[k]`: value stored under k. -/
def dictGet {K A : Type} [DecidableEq K] : List (K × A) → K → Option A
  | [], _ => none
  | (k1, v) :: rest, k => if k1 = k then some v else dictGet rest k

/-- Python `d[k] = v`: overwrite the existing entry in place, else append. -/
def dictSet {K A : Type} [DecidableEq K] : List (K × A) → K → A → List (K × A)
  | [], k, v => [(k, v)]
  | (k1, v1) :: rest, k, v =>
    if k1 = k then (k, v) :: rest else (k1, v1) :: dictSet rest k v

/-- Python `d.pop(k)`: remove the entry under k, returning its value and
the remaining dictionary. -/
def dictPop {K A : Type} [DecidableEq K] : List (K × A) → K → Option (A × List (K × A))
  | [], _ => none
  | (k1, v) :: rest, k =>
    if k1 = k then some (v, rest)
    else (dictPop rest k).map fun r => (r.1, (k1, v) :: r.2)

/-- Mutation of the object stored under k (Python aliasing: assigning to an
attribute of `d[k]` updates the stored object). -/
def dictMutate {K A : Type} [DecidableEq K] : List (K × A) → K → (A → A) → List (K × A)
  | [], _, _ => []
  | (k1, v) :: rest, k, f =>
    if k1 = k then (k1, f v) :: rest else (k1, v) :: dictMutate rest k f

/-- Number of entries stored under key k (0 or 1 for a genuine dict). -/
def countKey {K A : Type} [DecidableEq K] : List (K × A) → K → Nat
  | [], _ => 0
  | (k1, _) :: rest, k => (if k1 = k then 1 else 0) + countKey rest k

/-! Queue transport (message_queue.py). -/

/-- AGENT_QUEUES from message_queue.py: queue names for each agent. -/
def AGENT_QUEUES : List (AgentType × String) :=
  [(.local_claude, "agent.local.claude"),
   (.local_openai, "agent.local.openai"),
   (.cloud_gemini, "agent.cloud.gemini"),
   (.orchestrator, "agent.orchestrator")]

/-- Transport state of a MessageQueue object: whether self.channel is set
(connected), and whether a basic_publish on it would succeed (the broker
I/O outcome, an oracle of the environment). -/
structure MQState where
  connected : Bool
  publishOk : Bool

/-- MessageQueue.send_message: returns false when not connected; looks up
the target queue with AGENT_QUEUES.get and returns false when absent;
otherwise publishes and returns false exactly when basic_publish raises. -/
def MessageQueue.send_message (mq : MQState) (m : AgentMessage) : Bool :=
  if !mq.connected then false
  else
    match dictGet AGENT_QUEUES m.target_agent with
    | none => false
    | some _ => mq.publishOk

/-- Outcome of one operation inside the try block of MessageQueue.connect:
the operation either succeeds, raises pika's AMQPConnectionError — the
only class the except clause catches — or raises a different exception,
such as a channel-level ChannelClosedByBroker from a failing declare,
which except AMQPConnectionError does not catch. -/
inductive StepResult where
  | ok
  | amqpConnectionError
  | otherError (e : String)
deriving DecidableEq, Repr

/-- Outcomes of the operations of one connection attempt in
MessageQueue.connect: the BlockingConnection + channel() step, each
per-agent queue_declare (indexed by queue name), and the broadcast
exchange_declare. -/
structure AttemptOutcome where
  connection : StepResult
  queue_declare : String → StepResult
  exchange_declare : StepResult

/-- Sequence of the queue_declare calls of one attempt: stops at the
first declaration that raises. -/
def declare_queues (q : String → StepResult) : List String → StepResult
  | [] => .ok
  | name :: rest =>
    match q name with
    | .ok => declare_queues q rest
    | e => e

/-- One iteration of the try block of MessageQueue.connect: connection
and channel, then every per-agent queue declaration, then the broadcast
exchange declaration, stopping at the first operation that raises. -/
def run_attempt (o : AttemptOutcome) : StepResult :=
  match o.connection with
  | .ok =>
    match declare_queues o.queue_declare (AGENT_QUEUES.map (fun e => e.2)) with
    | .ok => o.exchange_declare
    | e => e
  | e => e

/-- Result of a MessageQueue.connect call that returned normally: the
returned boolean, the number of attempts made, and the list of sleep
durations taken between attempts. -/
structure ConnectResult where
  success : Bool
  attempts : Nat
  delays : List Nat

/-- Retry loop of MessageQueue.connect over the outcomes of the
successive attempts: the first fully successful attempt returns true; an
AMQPConnectionError is caught and followed by a retry_delay sleep unless
the attempt was the last allowed one; any other exception is not caught
and propagates out of connect (Except.error); an exhausted loop returns
false. -/
def connect_go (retry_delay : Nat) :
    List AttemptOutcome → Except String ConnectResult
  | [] => .ok { success := false, attempts := 0, delays := [] }
  | o :: rest =>
    match run_attempt o with
    | .ok => .ok { success := true, attempts := 1, delays := [] }
    | .amqpConnectionError =>
      match connect_go retry_delay rest with
      | .ok r =>
        .ok { success := r.success, attempts := r.attempts + 1,
              delays := if rest.isEmpty then r.delays
                        else retry_delay :: r.delays }
      | .error e => .error e
    | .otherError e => .error e

/-- MessageQueue.connect with max_retries and retry_delay: runs the retry
loop on the first max_retries attempt outcomes of the environment. -/
def MessageQueue.connect (oracle : Nat → AttemptOutcome)
    (max_retries retry_delay : Nat) : Except String ConnectResult :=
  connect_go retry_delay ((List.range max_retries).map oracle)

/-- MessageQueue.get_queue_stats: returns the empty mapping when
self.channel is not set; otherwise one entry per agent of AGENT_QUEUES,
keyed by the agent value, holding the passive queue_declare counts when
inspection succeeds and zeros when it raises.  The inspection outcome is
the oracle inspect, indexed by queue name. -/
def MessageQueue.get_queue_stats (connected : Bool)
    (inspect : String → Option (Nat × Nat)) : List (String × (Nat × Nat)) :=
  if !connected then []
  else
    AGENT_QUEUES.map fun e =>
      (e.1.value, match inspect e.2 with
        | some counts => counts
        | none => (0, 0))

/-! Agent runtime (agents.py). -/

/-- BaseAgent.handle_message, parameterized by the concrete agent's
process_task.  A process_task call that raises is an Except.error carrying
str(e); handle_message is a total function, so the exception never
escapes: the task_request branch wraps success in
create_response(result, true) and any exception in
create_response with an error payload and success false.  A heartbeat is
answered with a status_update; every other message type yields none.
freshId and freshTs stand for the auto-generated identity of whichever
new message is constructed. -/
def BaseAgent.handle_message (agent_type : AgentType)
    (process_task : Option TaskType → Json → Except String Json)
    (m : AgentMessage) (freshId freshTs : String) : Option AgentMessage :=
  if m.message_type = .task_request then
    match process_task m.task_type m.payload with
    | .ok result => some (m.create_response result true freshId freshTs)
    | .error e =>
      some (m.create_response (.obj [("error", .str e)]) false freshId freshTs)
  else if m.message_type = .heartbeat then
    some { message_type := .status_update
           source_agent := agent_type
           target_agent := m.source_agent
           payload := .obj [("status", .str "alive"), ("agent", .str agent_type.value)]
           task_type := none
           message_id := freshId
           timestamp := freshTs }
  else none

/-! Orchestrator (orchestrator.py). -/

/-- TaskStatus from orchestrator.py: local tracking record for one
submitted task.  submitted_at is filled by post-init from utcnow; the
construction site passes the current time. -/
structure TaskStatus where
  task_id : String
  task_type : TaskType
  target_agent : AgentType
  status : String := "pending"
  submitted_at : String := ""
  completed_at : String := ""
  result : Json := .obj []

/-- Mutable state of an Orchestrator: the tasks table and the registered
one-shot response handlers.  A callback is identified by an opaque
numeric id; invoking it is modelled by emitting that id. -/
structure Orchestrator where
  tasks : List (String × TaskStatus)
  response_handlers : List (String × Nat)

/-- Orchestrator._handle_response: if the correlation id is a tracked
task, update its status and result according to the message type
(task_response: completed with payload.get("result", payload); error:
failed with the whole payload; anything else: untouched) and stamp
completed_at with the current time; then, if a handler is registered
under the correlation id, pop it and invoke it.  Returns the new state
and the invoked handler, if any. -/
def Orchestrator.handle_response (st : Orchestrator) (m : AgentMessage)
    (now : String) : Orchestrator × Option Nat :=
  let cid := m.correlation_id
  let tasks1 :=
    if (dictGet st.tasks cid).isSome then
      dictMutate st.tasks cid fun task =>
        let task1 :=
          if m.message_type = .task_response then
            { task with status := "completed",
                        result := (m.payload.get "result").getD m.payload }
          else if m.message_type = .error then
            { task with status := "failed", result := m.payload }
          else task
        { task1 with completed_at := now }
    else st.tasks
  match dictPop st.response_handlers cid with
  | some r => ({ tasks := tasks1, response_handlers := r.2 }, some r.1)
  | none => ({ tasks := tasks1, response_handlers := st.response_handlers }, none)

/-- The orchestrator listener handling a sequence of messages one at a
time through handle_response, collecting the correlation id of every
callback invocation it performs. -/
def Orchestrator.handle_all (now : String) (st : Orchestrator) :
    List AgentMessage → Orchestrator × List String
  | [] => (st, [])
  | m :: ms =>
    let step := st.handle_response m now
    let rest := Orchestrator.handle_all now step.1 ms
    (rest.1, (match step.2 with
      | some _ => [m.correlation_id]
      | none => []) ++ rest.2)

/-- Orchestrator.submit_task: builds the task_request (message_id freshId,
timestamp now), records a pending TaskStatus under the message id, sets
the message correlation_id to the message id, registers the optional
callback under the same key, then sends; on a successful send marks the
task processing and returns the message id, otherwise marks it failed and
returns the empty string. -/
def Orchestrator.submit_task (st : Orchestrator) (mq : MQState)
    (target : AgentType) (task_type : TaskType) (payload : Json)
    (priority : Priority) (on_complete : Option Nat)
    (freshId now : String) : String × Orchestrator :=
  let message : AgentMessage :=
    { message_type := .task_request
      source_agent := .orchestrator
      target_agent := target
      task_type := some task_type
      payload := payload
      message_id := freshId
      timestamp := now
      correlation_id := ""
      priority := priority
      retry_count := 0 }
  let task : TaskStatus :=
    { task_id := freshId, task_type := task_type, target_agent := target,
      status := "pending", submitted_at := now }
  let tasks1 := dictSet st.tasks freshId task
  let message1 := { message with correlation_id := freshId }
  let handlers1 := match on_complete with
    | some cb => dictSet st.response_handlers freshId cb
    | none => st.response_handlers
  if MessageQueue.send_message mq message1 then
    (freshId,
     { tasks := dictMutate tasks1 freshId fun t => { t with status := "processing" },
       response_handlers := handlers1 })
  else
    ("",
     { tasks := dictMutate tasks1 freshId fun t => { t with status := "failed" },
       response_handlers := handlers1 })

/-- Orchestrator.get_all_tasks: the tracked TaskStatus values. -/
def Orchestrator.get_all_tasks (st : Orchestrator) : List TaskStatus :=
  st.tasks.map fun e => e.2

/-- Orchestrator.clear_completed_tasks: drop every task whose status is
completed or failed. -/
def Orchestrator.clear_completed_tasks (st : Orchestrator) : Orchestrator :=
  { st with tasks := st.tasks.filter fun e =>
      !(e.2.status == "completed" || e.2.status == "failed") }

/-! Helper lemmas about the enumerations. -/

theorem messageType_ofValue_value (t : MessageType) :
    MessageType.ofValue t.value = some t := by
  cases t <;> rfl

theorem agentType_ofValue_value (a : AgentType) :
    AgentType.ofValue a.value = some a := by
  cases a <;> rfl

theorem taskType_ofValue_value (t : TaskType) :
    TaskType.ofValue t.value = some t := by
  cases t <;> rfl

theorem priority_ofValue_value (p : Priority) :
    Priority.ofValue p.value = some p := by
  cases p <;> rfl

theorem TaskType.value_ne_empty (t : TaskType) : (t.value = "") = False := by
  cases t <;> simp [TaskType.value]

/-- C1: for every valid Message m (its enumerated fields drawn from the
fixed enumerations and its payload a JSON value), deserializing the
serialization of m yields m field-for-field:
AgentMessage.from_json (m.to_json) = some m. -/
theorem roundtrip_from_json_to_json (m : AgentMessage) :
    AgentMessage.from_json m.to_json = some m := by
  obtain ⟨mt, sa, ta, p, tt, id, ts, cid, pr, rc⟩ := m
  cases tt <;>
    simp [AgentMessage.to_json, AgentMessage.from_json, Json.get, Json.get.go,
      Json.asString, Json.asInt, Option.bind, Option.getD,
      messageType_ofValue_value, agentType_ofValue_value,
      taskType_ofValue_value, priority_ofValue_value, TaskType.value_ne_empty, Json.truthy]

/-- C2: create_response returns a message whose message_type is
task_response when success and error otherwise, whose source and target
are those of the request swapped, whose task_type is unchanged, whose
payload is the object with fields success and result, and whose
correlation_id is the request's correlation_id when non-empty and the
request's message_id otherwise. -/
theorem create_response_spec (m : AgentMessage) (result : Json)
    (success : Bool) (freshId freshTs : String) :
    (m.create_response result success freshId freshTs).message_type
        = (if success then .task_response else .error) ∧
    (m.create_response result success freshId freshTs).source_agent = m.target_agent ∧
    (m.create_response result success freshId freshTs).target_agent = m.source_agent ∧
    (m.create_response result success freshId freshTs).task_type = m.task_type ∧
    (m.create_response result success freshId freshTs).payload
        = .obj [("success", .bool success), ("result", result)] ∧
    (m.create_response result success freshId freshTs).correlation_id
        = (if m.correlation_id = "" then m.message_id else m.correlation_id) := by
  exact ⟨rfl, rfl, rfl, rfl, rfl, rfl⟩

/-- C3: for a task_request message whose process_task raises (an
Except.error outcome), handle_message returns the error-typed response
built by create_response with payload containing the exception text and
success false; handle_message is a total function, so the exception never
propagates to the caller. -/
theorem handle_message_wraps_exception (agent_type : AgentType)
    (process_task : Option TaskType → Json → Except String Json)
    (m : AgentMessage) (freshId freshTs : String) (e : String)
    (h1 : m.message_type = .task_request)
    (h2 : process_task m.task_type m.payload = .error e) :
    BaseAgent.handle_message agent_type process_task m freshId freshTs =
      some (m.create_response (.obj [("error", .str e)]) false freshId freshTs) := by
  simp [BaseAgent.handle_message, h1, h2]

/-- Sample task_request used to exercise the theorems on concrete data. -/
def sampleRequest : AgentMessage :=
  { message_type := .task_request
    source_agent := .orchestrator
    target_agent := .local_claude
    payload := .obj [("code", .str "x = 1")]
    task_type := some .code_review
    message_id := "m-1"
    timestamp := "t-0"
    correlation_id := "job-1" }

/-- Witness for C3 on concrete data: a process_task that raises is wrapped
into the error response. -/
theorem handle_message_wraps_exception_witness :
    BaseAgent.handle_message .local_claude
        (fun _ _ => .error "boom") sampleRequest "m-2" "t-1" =
      some (sampleRequest.create_response (.obj [("error", .str "boom")])
        false "m-2" "t-1") :=
  handle_message_wraps_exception .local_claude (fun _ _ => .error "boom")
    sampleRequest "m-2" "t-1" "boom" rfl rfl

/-! Helper lemmas about the dictionary operations. -/

theorem dictGet_dictSet_self {K A : Type} [DecidableEq K]
    (d : List (K × A)) (k : K) (v : A) :
    dictGet (dictSet d k v) k = some v := by
  induction d with
  | nil => simp [dictSet, dictGet]
  | cons e rest ih =>
    obtain ⟨k1, v1⟩ := e
    by_cases h : k1 = k <;> simp [dictSet, dictGet, h, ih]

theorem dictGet_dictMutate_self {K A : Type} [DecidableEq K]
    (d : List (K × A)) (k : K) (f : A → A) :
    dictGet (dictMutate d k f) k = (dictGet d k).map f := by
  induction d with
  | nil => simp [dictMutate, dictGet]
  | cons e rest ih =>
    obtain ⟨k1, v1⟩ := e
    by_cases h : k1 = k <;> simp [dictMutate, dictGet, h, ih]

theorem dictPop_map_fst {K A : Type} [DecidableEq K]
    (d : List (K × A)) (k : K) :
    (dictPop d k).map (fun r => r.1) = dictGet d k := by
  induction d with
  | nil => simp [dictPop, dictGet]
  | cons e rest ih =>
    obtain ⟨k1, v1⟩ := e
    by_cases h : k1 = k
    · simp [dictPop, dictGet, h]
    · cases hp : dictPop rest k <;>
        simp_all [dictPop, dictGet, h, hp]

theorem dictGet_none_dictPop {K A : Type} [DecidableEq K]
    (d : List (K × A)) (k : K) (h : dictGet d k = none) :
    dictPop d k = none := by
  have hm := dictPop_map_fst d k
  rw [h] at hm
  exact Option.map_eq_none.mp hm

theorem countKey_eq_zero_iff {K A : Type} [DecidableEq K]
    (d : List (K × A)) (k : K) :
    countKey d k = 0 ↔ dictGet d k = none := by
  induction d with
  | nil => simp [countKey, dictGet]
  | cons e rest ih =>
    obtain ⟨k1, v1⟩ := e
    by_cases h : k1 = k <;> simp [countKey, dictGet, h, ih]

theorem countKey_dictPop_self {K A : Type} [DecidableEq K]
    (d : List (K × A)) (k : K) (r : A × List (K × A))
    (h : dictPop d k = some r) :
    countKey r.2 k + 1 = countKey d k := by
  induction d generalizing r with
  | nil => simp [dictPop] at h
  | cons e tail ih =>
    obtain ⟨k1, v1⟩ := e
    by_cases hk : k1 = k
    · rw [dictPop, if_pos hk] at h
      obtain ⟨rv, rrest⟩ := r
      simp at h
      obtain ⟨hv, hrest⟩ := h
      subst hrest
      simp [countKey, hk]
      omega
    · rw [dictPop, if_neg hk] at h
      cases hp : dictPop tail k with
      | none => rw [hp] at h; simp at h
      | some r1 =>
        rw [hp] at h
        obtain ⟨rv, rrest⟩ := r
        simp at h
        obtain ⟨hv, hrest⟩ := h
        have := ih r1 hp
        simp [countKey, hk, ← hrest]
        omega

theorem countKey_dictPop_other {K A : Type} [DecidableEq K]
    (d : List (K × A)) (k k1 : K) (r : A × List (K × A))
    (h : dictPop d k1 = some r) (hne : k ≠ k1) :
    countKey r.2 k = countKey d k := by
  induction d generalizing r with
  | nil => simp [dictPop] at h
  | cons e tail ih =>
    obtain ⟨k2, v2⟩ := e
    by_cases hk : k2 = k1
    · rw [dictPop, if_pos hk] at h
      obtain ⟨rv, rrest⟩ := r
      simp at h
      obtain ⟨hv, hrest⟩ := h
      subst hrest
      have hne2 : ¬ (k2 = k) := by rw [hk]; exact fun hx => hne hx.symm
      simp [countKey, hne2]
    · rw [dictPop, if_neg hk] at h
      cases hp : dictPop tail k1 with
      | none => rw [hp] at h; simp at h
      | some r1 =>
        rw [hp] at h
        obtain ⟨rv, rrest⟩ := r
        simp at h
        obtain ⟨hv, hrest⟩ := h
        have := ih r1 hp
        rw [countKey, ← hrest, countKey]
        omega

/-- send_message on any message reduces to: connected and the publish
succeeded (every AgentType has a queue in AGENT_QUEUES, so the unknown
target branch is unreachable for well-typed messages). -/
theorem send_message_eq (mq : MQState) (m : AgentMessage) :
    MessageQueue.send_message mq m = (mq.connected && mq.publishOk) := by
  cases hc : mq.connected <;>
    cases ht : m.target_agent <;>
      simp_all [MessageQueue.send_message, AGENT_QUEUES, dictGet]

/-- C4: submit_task is a total function (it never raises); it records a
TaskStatus for the new request; when the transport send succeeds it marks
that status processing and returns the request's message_id; when the
send fails it marks the status failed and returns the empty string. -/
theorem submit_task_spec (st : Orchestrator) (mq : MQState)
    (target : AgentType) (task_type : TaskType) (payload : Json)
    (priority : Priority) (on_complete : Option Nat) (freshId now : String) :
    ((mq.connected && mq.publishOk) = true →
      (st.submit_task mq target task_type payload priority on_complete freshId now).1
          = freshId ∧
      dictGet (st.submit_task mq target task_type payload priority on_complete
          freshId now).2.tasks freshId =
        some { task_id := freshId, task_type := task_type, target_agent := target,
               status := "processing", submitted_at := now }) ∧
    ((mq.connected && mq.publishOk) = false →
      (st.submit_task mq target task_type payload priority on_complete freshId now).1
          = "" ∧
      dictGet (st.submit_task mq target task_type payload priority on_complete
          freshId now).2.tasks freshId =
        some { task_id := freshId, task_type := task_type, target_agent := target,
               status := "failed", submitted_at := now }) := by
  constructor <;> intro h <;>
    simp [Orchestrator.submit_task, send_message_eq, h,
      dictGet_dictMutate_self, dictGet_dictSet_self]

/-- Witness for C4 on concrete data: both the successful-send and the
failed-send branches, each at a concrete transport state. -/
theorem submit_task_spec_witness :
    (Orchestrator.submit_task ⟨[], []⟩ ⟨true, true⟩ .local_claude .code_review
        (.obj []) .medium none "id-1" "t-0").1 = "id-1" ∧
    (Orchestrator.submit_task ⟨[], []⟩ ⟨false, true⟩ .local_claude .code_review
        (.obj []) .medium none "id-1" "t-0").1 = "" :=
  ⟨((submit_task_spec ⟨[], []⟩ ⟨true, true⟩ .local_claude .code_review
      (.obj []) .medium none "id-1" "t-0").1 rfl).1,
   ((submit_task_spec ⟨[], []⟩ ⟨false, true⟩ .local_claude .code_review
      (.obj []) .medium none "id-1" "t-0").2 rfl).1⟩

theorem dictSet_of_absent {K A : Type} [DecidableEq K]
    (d : List (K × A)) (k : K) (v : A) (h : dictGet d k = none) :
    dictSet d k v = d ++ [(k, v)] := by
  induction d with
  | nil => simp [dictSet]
  | cons e rest ih =>
    obtain ⟨k1, v1⟩ := e
    by_cases hk : k1 = k <;> simp_all [dictSet, dictGet, hk]

theorem dictMutate_append_absent {K A : Type} [DecidableEq K]
    (d : List (K × A)) (k : K) (v : A) (f : A → A)
    (h : dictGet d k = none) :
    dictMutate (d ++ [(k, v)]) k f = d ++ [(k, f v)] := by
  induction d with
  | nil => simp [dictMutate]
  | cons e rest ih =>
    obtain ⟨k1, v1⟩ := e
    by_cases hk : k1 = k <;> simp_all [dictMutate, dictGet, hk]

theorem dictGet_append_absent {K A : Type} [DecidableEq K]
    (d : List (K × A)) (k : K) (v : A) (h : dictGet d k = none) :
    dictGet (d ++ [(k, v)]) k = some v := by
  induction d with
  | nil => simp [dictGet]
  | cons e rest ih =>
    obtain ⟨k1, v1⟩ := e
    by_cases hk : k1 = k <;> simp_all [dictGet, hk]

theorem dictGet_filter_none {K A : Type} [DecidableEq K]
    (d : List (K × A)) (k : K) (p : K × A → Bool) (h : dictGet d k = none) :
    dictGet (d.filter p) k = none := by
  induction d with
  | nil => simp [dictGet]
  | cons e rest ih =>
    obtain ⟨k1, v1⟩ := e
    by_cases hk : k1 = k
    · simp_all [dictGet, hk]
    · by_cases hp : p (k1, v1) <;> simp_all [dictGet, hk]

/-- C6: handling a response whose correlation_id is tracked by no task and
registered with no handler raises nothing, invokes nothing and leaves the
whole orchestrator state unchanged. -/
theorem handle_response_unknown_noop (st : Orchestrator) (m : AgentMessage)
    (now : String)
    (h1 : dictGet st.tasks m.correlation_id = none)
    (h2 : dictGet st.response_handlers m.correlation_id = none) :
    st.handle_response m now = (st, none) := by
  simp [Orchestrator.handle_response, h1, dictGet_none_dictPop _ _ h2]

/-- Orchestrator state used to exercise the response-handling theorems on
concrete data. -/
def sampleOrch : Orchestrator :=
  { tasks := [("job-1",
      { task_id := "job-1", task_type := .code_review,
        target_agent := .local_claude, status := "processing",
        submitted_at := "t-0" })],
    response_handlers := [("job-1", 7)] }

/-- A task_response addressed to the orchestrator with an unknown
correlation id. -/
def strayResponse : AgentMessage :=
  { message_type := .task_response
    source_agent := .local_claude
    target_agent := .orchestrator
    payload := .obj [("success", .bool true), ("result", .obj [])]
    task_type := some .code_review
    message_id := "m-9"
    timestamp := "t-9"
    correlation_id := "job-unknown" }

/-- Witness for C6 on concrete data: a stray correlation id leaves the
state untouched and invokes no handler. -/
theorem handle_response_unknown_noop_witness :
    sampleOrch.handle_response strayResponse "t-10" = (sampleOrch, none) :=
  handle_response_unknown_noop sampleOrch strayResponse "t-10" rfl rfl

/-- C9: a message matching a tracked task stamps completed_at with the
current time and pops/invokes the registered handler whatever its
message_type is; for a message_type that is neither task_response nor
error the task's status and result are left unchanged (only completed_at
moves). -/
theorem handle_response_tracked (st : Orchestrator) (m : AgentMessage)
    (now : String) (t : TaskStatus)
    (h1 : dictGet st.tasks m.correlation_id = some t) :
    (∃ t1, dictGet (st.handle_response m now).1.tasks m.correlation_id = some t1 ∧
        t1.completed_at = now) ∧
    (st.handle_response m now).2 = dictGet st.response_handlers m.correlation_id ∧
    (∀ cb, dictGet st.response_handlers m.correlation_id = some cb →
        countKey (st.handle_response m now).1.response_handlers m.correlation_id + 1
          = countKey st.response_handlers m.correlation_id) ∧
    (m.message_type ≠ .task_response → m.message_type ≠ .error →
        dictGet (st.handle_response m now).1.tasks m.correlation_id
          = some { t with completed_at := now }) := by
  have hpopfst := dictPop_map_fst st.response_handlers m.correlation_id
  cases hp : dictPop st.response_handlers m.correlation_id with
  | none =>
    rw [hp] at hpopfst
    refine ⟨?_, ?_, ?_, ?_⟩
    · refine ⟨{ (if m.message_type = .task_response then
            { t with status := "completed",
                     result := (m.payload.get "result").getD m.payload }
          else if m.message_type = .error then
            { t with status := "failed", result := m.payload }
          else t) with completed_at := now }, ?_, rfl⟩
      simp [Orchestrator.handle_response, h1, hp, dictGet_dictMutate_self]
    · simp [Orchestrator.handle_response, h1, hp, ← hpopfst]
    · intro cb hcb
      rw [← hpopfst] at hcb
      simp at hcb
    · intro hmt1 hmt2
      simp [Orchestrator.handle_response, h1, hp, dictGet_dictMutate_self,
        hmt1, hmt2]
  | some r =>
    rw [hp] at hpopfst
    refine ⟨?_, ?_, ?_, ?_⟩
    · refine ⟨{ (if m.message_type = .task_response then
            { t with status := "completed",
                     result := (m.payload.get "result").getD m.payload }
          else if m.message_type = .error then
            { t with status := "failed", result := m.payload }
          else t) with completed_at := now }, ?_, rfl⟩
      simp [Orchestrator.handle_response, h1, hp, dictGet_dictMutate_self]
    · simp [Orchestrator.handle_response, h1, hp, ← hpopfst]
    · intro cb hcb
      have := countKey_dictPop_self st.response_handlers m.correlation_id r hp
      simp [Orchestrator.handle_response, h1, hp]
      omega
    · intro hmt1 hmt2
      simp [Orchestrator.handle_response, h1, hp, dictGet_dictMutate_self,
        hmt1, hmt2]

/-- A status_update carrying a tracked correlation id. -/
def trackedStatusUpdate : AgentMessage :=
  { message_type := .status_update
    source_agent := .local_claude
    target_agent := .orchestrator
    payload := .obj [("status", .str "alive")]
    task_type := none
    message_id := "m-8"
    timestamp := "t-8"
    correlation_id := "job-1" }

/-- Witness for C9 on concrete data: a status_update matching a tracked
task stamps completed_at, pops the handler, and leaves status and result
unchanged. -/
theorem handle_response_tracked_witness :
    (∃ t1, dictGet (sampleOrch.handle_response trackedStatusUpdate "t-10").1.tasks
        "job-1" = some t1 ∧ t1.completed_at = "t-10") ∧
    (sampleOrch.handle_response trackedStatusUpdate "t-10").2
        = dictGet sampleOrch.response_handlers "job-1" ∧
    (∀ cb, dictGet sampleOrch.response_handlers "job-1" = some cb →
        countKey (sampleOrch.handle_response trackedStatusUpdate "t-10").1.response_handlers
            "job-1" + 1
          = countKey sampleOrch.response_handlers "job-1") ∧
    (trackedStatusUpdate.message_type ≠ .task_response →
     trackedStatusUpdate.message_type ≠ .error →
        dictGet (sampleOrch.handle_response trackedStatusUpdate "t-10").1.tasks "job-1"
          = some { task_id := "job-1", task_type := .code_review,
                   target_agent := .local_claude, status := "processing",
                   submitted_at := "t-0", completed_at := "t-10" }) :=
  handle_response_tracked sampleOrch trackedStatusUpdate "t-10"
    { task_id := "job-1", task_type := .code_review,
      target_agent := .local_claude, status := "processing",
      submitted_at := "t-0" } rfl

/-- C10: submit_task inserts the TaskStatus before attempting the send, so
a failed send leaves a record with status failed keyed by the request's
message_id while the caller receives the empty string; the record is
visible through get_all_tasks and removed by clear_completed_tasks. -/
theorem submit_task_failed_record (st : Orchestrator) (mq : MQState)
    (target : AgentType) (task_type : TaskType) (payload : Json)
    (priority : Priority) (on_complete : Option Nat) (freshId now : String)
    (hFresh : dictGet st.tasks freshId = none)
    (hSend : (mq.connected && mq.publishOk) = false) :
    (st.submit_task mq target task_type payload priority on_complete freshId now).1
        = "" ∧
    dictGet (st.submit_task mq target task_type payload priority on_complete
        freshId now).2.tasks freshId =
      some { task_id := freshId, task_type := task_type, target_agent := target,
             status := "failed", submitted_at := now } ∧
    ({ task_id := freshId, task_type := task_type, target_agent := target,
       status := "failed", submitted_at := now } : TaskStatus) ∈
      (st.submit_task mq target task_type payload priority on_complete
        freshId now).2.get_all_tasks ∧
    dictGet (st.submit_task mq target task_type payload priority on_complete
        freshId now).2.clear_completed_tasks.tasks freshId = none := by
  have htasks :
      (st.submit_task mq target task_type payload priority on_complete
        freshId now).2.tasks =
      st.tasks ++ [(freshId,
        { task_id := freshId, task_type := task_type, target_agent := target,
          status := "failed", submitted_at := now })] := by
    simp [Orchestrator.submit_task, send_message_eq, hSend,
      dictSet_of_absent _ _ _ hFresh, dictMutate_append_absent _ _ _ _ hFresh]
  refine ⟨?_, ?_, ?_, ?_⟩
  · simp [Orchestrator.submit_task, send_message_eq, hSend]
  · rw [htasks]
    exact dictGet_append_absent _ _ _ hFresh
  · simp [Orchestrator.get_all_tasks, htasks]
  · rw [Orchestrator.clear_completed_tasks, htasks, List.filter_append]
    simp [dictGet_filter_none _ _ _ hFresh, dictGet]

/-- Witness for C10 on concrete data: a failed submit leaves exactly the
failed record, visible until clear_completed_tasks removes it. -/
theorem submit_task_failed_record_witness :
    (Orchestrator.submit_task ⟨[], []⟩ ⟨false, false⟩ .local_openai
        .brainstorming (.obj []) .high none "id-7" "t-7").1 = "" ∧
    dictGet (Orchestrator.submit_task ⟨[], []⟩ ⟨false, false⟩ .local_openai
        .brainstorming (.obj []) .high none "id-7" "t-7").2.tasks "id-7" =
      some { task_id := "id-7", task_type := .brainstorming,
             target_agent := .local_openai, status := "failed",
             submitted_at := "t-7" } ∧
    ({ task_id := "id-7", task_type := .brainstorming,
       target_agent := .local_openai, status := "failed",
       submitted_at := "t-7" } : TaskStatus) ∈
      (Orchestrator.submit_task ⟨[], []⟩ ⟨false, false⟩ .local_openai
        .brainstorming (.obj []) .high none "id-7" "t-7").2.get_all_tasks ∧
    dictGet (Orchestrator.submit_task ⟨[], []⟩ ⟨false, false⟩ .local_openai
        .brainstorming (.obj []) .high none "id-7"
        "t-7").2.clear_completed_tasks.tasks "id-7" = none :=
  submit_task_failed_record ⟨[], []⟩ ⟨false, false⟩ .local_openai
    .brainstorming (.obj []) .high none "id-7" "t-7" rfl rfl






/-- Across a whole listener run, the number of callback invocations at a
given correlation id plus the registrations left at that id equals the
registrations initially present at that id: handle_response only ever
pops registrations, never adds one. -/
theorem handle_all_count_invariant (now cid : String) :
    ∀ (msgs : List AgentMessage) (st : Orchestrator),
      List.count cid (Orchestrator.handle_all now st msgs).2 +
        countKey (Orchestrator.handle_all now st msgs).1.response_handlers cid
      = countKey st.response_handlers cid
  | [], st => by simp [Orchestrator.handle_all]
  | m :: ms, st => by
    have ih := handle_all_count_invariant now cid ms (st.handle_response m now).1
    cases hp : dictPop st.response_handlers m.correlation_id with
    | none =>
      have hstep : (st.handle_response m now).1.response_handlers
          = st.response_handlers := by
        simp [Orchestrator.handle_response, hp]
      have hstep2 : (st.handle_response m now).2 = none := by
        simp [Orchestrator.handle_response, hp]
      simp only [Orchestrator.handle_all, hstep2]
      rw [hstep] at ih
      simpa using ih
    | some r =>
      have hstep : (st.handle_response m now).1.response_handlers = r.2 := by
        simp [Orchestrator.handle_response, hp]
      have hstep2 : (st.handle_response m now).2 = some r.1 := by
        simp [Orchestrator.handle_response, hp]
      simp only [Orchestrator.handle_all, hstep2]
      rw [hstep] at ih
      by_cases hcid : m.correlation_id = cid
      · have hcount := countKey_dictPop_self st.response_handlers
          m.correlation_id r hp
        rw [hcid] at hcount
        simp [hcid, List.count_cons]
        omega
      · have hcount := countKey_dictPop_other st.response_handlers
          cid m.correlation_id r hp (fun hx => hcid hx.symm)
        simp [List.count_cons, hcid]
        omega

/-- C5: a callback registered (at most once, as in a Python dict) under a
correlation id is invoked at most once over any sequence of handled
messages, and the first handled message carrying that id invokes exactly
that callback and removes the registration, so later duplicates cannot
invoke it again. -/
theorem callback_at_most_once (st : Orchestrator) (cid now : String)
    (msgs : List AgentMessage)
    (hreg : countKey st.response_handlers cid ≤ 1) :
    List.count cid (Orchestrator.handle_all now st msgs).2 ≤ 1 ∧
    (∀ (m : AgentMessage) (cb : Nat), m.correlation_id = cid →
      dictGet st.response_handlers cid = some cb →
      (st.handle_response m now).2 = some cb ∧
      dictGet (st.handle_response m now).1.response_handlers cid = none) := by
  constructor
  · have hinv := handle_all_count_invariant now cid msgs st
    omega
  · intro m cb hm hcb
    subst hm
    have hpf := dictPop_map_fst st.response_handlers m.correlation_id
    rw [hcb] at hpf
    cases hp : dictPop st.response_handlers m.correlation_id with
    | none => rw [hp] at hpf; simp at hpf
    | some r =>
      rw [hp] at hpf
      simp at hpf
      have hcount := countKey_dictPop_self st.response_handlers
        m.correlation_id r hp
      constructor
      · simp [Orchestrator.handle_response, hp, hpf]
      · have hz : countKey r.2 m.correlation_id = 0 := by omega
        simp [Orchestrator.handle_response, hp,
          (countKey_eq_zero_iff r.2 m.correlation_id).mp hz]

/-- A duplicate-prone task_response correlated to the tracked job of
sampleOrch. -/
def sampleTaskResponse : AgentMessage :=
  { message_type := .task_response
    source_agent := .local_claude
    target_agent := .orchestrator
    payload := .obj [("success", .bool true), ("result", .obj [("review", .str "ok")])]
    task_type := some .code_review
    message_id := "m-5"
    timestamp := "t-5"
    correlation_id := "job-1" }

/-- Witness for C5 on concrete data: delivering the same response twice
invokes the registered callback at most once. -/
theorem callback_at_most_once_witness :
    countKey sampleOrch.response_handlers "job-1" ≤ 1 ∧
    List.count "job-1" (Orchestrator.handle_all "t-10" sampleOrch
        [sampleTaskResponse, sampleTaskResponse]).2 ≤ 1 :=
  ⟨by decide,
   (callback_at_most_once sampleOrch "job-1" "t-10"
      [sampleTaskResponse, sampleTaskResponse] (by decide)).1⟩

/-! Lemmas about the connect retry loop. -/

theorem declare_queues_ok_iff (q : String → StepResult) (names : List String) :
    declare_queues q names = .ok ↔ ∀ n ∈ names, q n = .ok := by
  induction names with
  | nil => simp [declare_queues]
  | cons n rest ih =>
    cases hq : q n with
    | ok => simp [declare_queues, hq, ih]
    | amqpConnectionError => simp [declare_queues, hq]
    | otherError e => simp [declare_queues, hq]

theorem run_attempt_ok_iff (o : AttemptOutcome) :
    run_attempt o = .ok ↔
      o.connection = .ok ∧
      (∀ q ∈ AGENT_QUEUES.map (fun e => e.2), o.queue_declare q = .ok) ∧
      o.exchange_declare = .ok := by
  constructor
  · intro h
    cases hc : o.connection with
    | ok =>
      cases hd : declare_queues o.queue_declare (AGENT_QUEUES.map (fun e => e.2)) with
      | ok =>
        simp only [run_attempt, hc, hd] at h
        exact ⟨rfl, (declare_queues_ok_iff _ _).mp hd, h⟩
      | amqpConnectionError =>
        simp only [run_attempt, hc, hd] at h
        simp at h
      | otherError e =>
        simp only [run_attempt, hc, hd] at h
        simp at h
    | amqpConnectionError =>
      simp only [run_attempt, hc] at h
      simp at h
    | otherError e =>
      simp only [run_attempt, hc] at h
      simp at h
  · rintro ⟨h1, h2, h3⟩
    simp only [run_attempt, h1, (declare_queues_ok_iff _ _).mpr h2]
    exact h3

theorem connect_go_cons_amqp (d : Nat) (o : AttemptOutcome)
    (rest : List AttemptOutcome) (r : ConnectResult)
    (ho : run_attempt o = .amqpConnectionError)
    (hrest : connect_go d rest = .ok r) :
    connect_go d (o :: rest) = .ok { success := r.success, attempts := r.attempts + 1, delays := if rest.isEmpty then r.delays else d :: r.delays } := by
  simp [connect_go, ho, hrest]

theorem connect_go_all_amqp (d : Nat) (outs : List AttemptOutcome)
    (h : ∀ o ∈ outs, run_attempt o = .amqpConnectionError) :
    connect_go d outs = .ok { success := false, attempts := outs.length, delays := List.replicate (outs.length - 1) d } := by
  induction outs with
  | nil => rfl
  | cons o rest ih =>
    have ho := h o (by simp)
    have hrest := ih (fun x hx => h x (by simp [hx]))
    rw [connect_go_cons_amqp d o rest _ ho hrest]
    cases rest with
    | nil => simp
    | cons o2 r2 => simp [List.replicate_succ]

theorem connect_go_ok_success (d : Nat) (outs : List AttemptOutcome)
    (r : ConnectResult) (hok : connect_go d outs = .ok r)
    (hs : r.success = true) :
    ∃ o ∈ outs, run_attempt o = .ok := by
  induction outs generalizing r with
  | nil =>
    simp [connect_go] at hok
    rw [← hok] at hs
    simp at hs
  | cons o rest ih =>
    cases ha : run_attempt o with
    | ok => exact ⟨o, by simp, ha⟩
    | amqpConnectionError =>
      cases hr : connect_go d rest with
      | ok r1 =>
        rw [connect_go, ha, hr] at hok
        simp at hok
        have hs1 : r1.success = true := by rw [← hok] at hs; simpa using hs
        obtain ⟨x, hx, hxa⟩ := ih r1 hr hs1
        exact ⟨x, by simp [hx], hxa⟩
      | error e => rw [connect_go, ha, hr] at hok; simp at hok
    | otherError e => rw [connect_go, ha] at hok; simp at hok

theorem connect_go_ok_bounds (d : Nat) (outs : List AttemptOutcome)
    (r : ConnectResult) (hok : connect_go d outs = .ok r) :
    r.attempts ≤ outs.length ∧ ∀ x ∈ r.delays, x = d := by
  induction outs generalizing r with
  | nil =>
    simp [connect_go] at hok
    rw [← hok]
    simp
  | cons o rest ih =>
    cases ha : run_attempt o with
    | ok =>
      rw [connect_go, ha] at hok
      simp at hok
      rw [← hok]
      simp
    | amqpConnectionError =>
      cases hr : connect_go d rest with
      | ok r1 =>
        rw [connect_go, ha, hr] at hok
        simp at hok
        obtain ⟨h1, h2⟩ := ih r1 hr
        rw [← hok]
        refine ⟨by simpa using Nat.succ_le_succ h1, ?_⟩
        intro x hx
        by_cases he : rest.isEmpty <;> simp [he] at hx
        · exact h2 x hx
        · rcases hx with hx | hx
          · exact hx
          · exact h2 x hx
      | error e => rw [connect_go, ha, hr] at hok; simp at hok
    | otherError e => rw [connect_go, ha] at hok; simp at hok

theorem connect_go_error (d : Nat) (outs : List AttemptOutcome) (e : String)
    (he : connect_go d outs = .error e) :
    ∃ o ∈ outs, run_attempt o = .otherError e := by
  induction outs with
  | nil => simp [connect_go] at he
  | cons o rest ih =>
    cases ha : run_attempt o with
    | ok => rw [connect_go, ha] at he; simp at he
    | amqpConnectionError =>
      cases hr : connect_go d rest with
      | ok r1 => rw [connect_go, ha, hr] at he; simp at he
      | error e2 =>
        rw [connect_go, ha, hr] at he
        simp at he
        obtain ⟨x, hx, hxa⟩ := ih (by rw [hr, he])
        exact ⟨x, by simp [hx], hxa⟩
    | otherError e2 =>
      rw [connect_go, ha] at he
      simp at he
      exact ⟨o, by simp, by rw [ha, he]⟩

/-- C7 (amended): connect catches only AMQPConnectionError.  When every
attempt fails at connection level it returns false — not an exception —
after exactly max_retries attempts, with the fixed retry_delay slept
between consecutive attempts; every run that returns normally makes at
most max_retries attempts and sleeps only the fixed delay; it returns
true only when some attempt's connection, channel, every per-agent queue
declaration and the broadcast exchange declaration all succeeded; and an
exception escapes connect exactly when some attempt raised a
non-connection exception (such as a channel-level declare failure),
which the except clause does not catch. -/
theorem connect_retries_spec (oracle : Nat → AttemptOutcome)
    (max_retries retry_delay : Nat) :
    ((∀ i < max_retries, run_attempt (oracle i) = .amqpConnectionError) →
      MessageQueue.connect oracle max_retries retry_delay =
        .ok { success := false, attempts := max_retries, delays := List.replicate (max_retries - 1) retry_delay }) ∧
    (∀ r, MessageQueue.connect oracle max_retries retry_delay = .ok r →
      r.success = true →
      ∃ i < max_retries,
        (oracle i).connection = .ok ∧
        (∀ q ∈ AGENT_QUEUES.map (fun e => e.2),
          (oracle i).queue_declare q = .ok) ∧
        (oracle i).exchange_declare = .ok) ∧
    (∀ r, MessageQueue.connect oracle max_retries retry_delay = .ok r →
      r.attempts ≤ max_retries ∧ ∀ x ∈ r.delays, x = retry_delay) ∧
    (∀ e, MessageQueue.connect oracle max_retries retry_delay = .error e →
      ∃ i < max_retries, run_attempt (oracle i) = .otherError e) := by
  refine ⟨?_, ?_, ?_, ?_⟩
  · intro h
    have hall : ∀ o ∈ (List.range max_retries).map oracle,
        run_attempt o = .amqpConnectionError := by
      intro o ho
      simp [List.mem_map, List.mem_range] at ho
      obtain ⟨i, hi, rfl⟩ := ho
      exact h i hi
    have := connect_go_all_amqp retry_delay
      ((List.range max_retries).map oracle) hall
    simpa [MessageQueue.connect] using this
  · intro r hok hs
    obtain ⟨o, ho, hoa⟩ := connect_go_ok_success retry_delay
      ((List.range max_retries).map oracle) r hok hs
    simp [List.mem_map, List.mem_range] at ho
    obtain ⟨i, hi, rfl⟩ := ho
    obtain ⟨h1, h2, h3⟩ := (run_attempt_ok_iff (oracle i)).mp hoa
    exact ⟨i, hi, h1, h2, h3⟩
  · intro r hok
    have := connect_go_ok_bounds retry_delay
      ((List.range max_retries).map oracle) r hok
    simpa using this
  · intro e he
    obtain ⟨o, ho, hoa⟩ := connect_go_error retry_delay
      ((List.range max_retries).map oracle) e he
    simp [List.mem_map, List.mem_range] at ho
    obtain ⟨i, hi, rfl⟩ := ho
    exact ⟨i, hi, hoa⟩

/-- Attempt outcome whose connection succeeds but whose first queue
declaration raises a channel-level error, which pika does not deliver as
an AMQPConnectionError. -/
def channelErrorAttempt : AttemptOutcome :=
  { connection := .ok
    queue_declare := fun _ => .otherError "ChannelClosedByBroker"
    exchange_declare := .ok }

/-- C7 counterexample: with the Python default arguments (max_retries 5,
retry_delay 5) and an environment whose queue_declare raises a
channel-level ChannelClosedByBroker, connect propagates the exception
instead of catching it, retrying or returning false — except
AMQPConnectionError does not match it — refuting the claim that connect
never raises an unhandled exception. -/
theorem connect_channel_error_counterexample :
    MessageQueue.connect (fun _ => channelErrorAttempt) 5 5 =
      .error "ChannelClosedByBroker" := rfl

/-! get_queue_stats. -/

/-- C8 counterexample: with the transport not connected, get_queue_stats
returns the empty mapping — it omits the entry of every known agent
(here local_claude) instead of reporting zeros for it, contrary to the
claim that a zeros entry is returned even when not connected. -/
theorem get_queue_stats_disconnected_counterexample :
    MessageQueue.get_queue_stats false (fun _ => some (3, 1)) = [] ∧
    dictGet (MessageQueue.get_queue_stats false (fun _ => some (3, 1)))
      (AgentType.local_claude).value = none :=
  ⟨rfl, rfl⟩

/-- C8 (amended): get_queue_stats never raises; when the transport is
connected it returns a messages/consumers entry for every known agent,
reporting zeros for any agent whose queue cannot be inspected; when the
transport is not connected it returns the empty mapping, omitting all
entries. -/
theorem get_queue_stats_spec (connected : Bool)
    (inspect : String → Option (Nat × Nat)) :
    (connected = true → ∀ (a : AgentType) (q : String),
      dictGet AGENT_QUEUES a = some q →
      dictGet (MessageQueue.get_queue_stats connected inspect) a.value
        = some ((inspect q).getD (0, 0))) ∧
    (connected = false → MessageQueue.get_queue_stats connected inspect = []) := by
  constructor
  · rintro rfl a q hq
    cases a <;>
      (simp_all [AGENT_QUEUES, dictGet, MessageQueue.get_queue_stats,
         AgentType.value];
       cases hi : inspect q <;> simp [hi])
  · rintro rfl
    rfl

/-- Witness for C8 (amended) on concrete data: connected but with every
inspection failing, the local_claude agent still gets a zeros entry. -/
theorem get_queue_stats_spec_witness :
    dictGet (MessageQueue.get_queue_stats true (fun _ => none))
      (AgentType.local_claude).value = some (0, 0) :=
  (get_queue_stats_spec true (fun _ => none)).1 rfl .local_claude
    "agent.local.claude" rfl

end FederatedAgents
